import Mathlib

/-!
Shallow embedding of the checkout core of the rells-kitchen storefront
(`server.js`, the `TaxCalculator` class, the `USPSOAuthIntegration` class and
`postgresql-setup.js`), together with theorems settling the specification
claims about it.

Monetary values are modelled exactly over `ℚ`; the JavaScript source computes
on IEEE doubles and formats with `toFixed(2)`, which we model as exact rational
arithmetic followed by round-half-up to two decimals (`round2`).  Database rows
are modelled as lists of records, SQL statements as pure functions on a
`DBState`, and each `pool.query` mutation that may fail as a statement guarded
by an explicit failure oracle.  External HTTP collaborators (PayPal, the USPS
rate API) are modelled by passing their outcomes as `Except` arguments.
-/

namespace RellsKitchen

/-- Round a rational to two decimal places, half up: the model of
JavaScript's `x.toFixed(2)` (ECMAScript picks the larger candidate on ties). -/
def round2 (q : ℚ) : ℚ := (⌊q * 100 + 1 / 2⌋ : ℚ) / 100

/-- `s.toLowerCase()` on the ASCII strings handled here, written structurally
over the character list so that it computes by kernel reduction. -/
def jsToLower (s : String) : String := String.mk (s.data.map Char.toLower)

/-- `s.toUpperCase()` on the ASCII strings handled here. -/
def jsToUpper (s : String) : String := String.mk (s.data.map Char.toUpper)

/-- The first `n` characters of `s` (used to model the regex `^7[12]`). -/
def jsTake (s : String) (n : ℕ) : String := String.mk (s.data.take n)

/-! ## TaxCalculator (`tax-calculator.js`) -/

/-- `this.taxRates` table of the `TaxCalculator` constructor. -/
def taxRates : List (String × ℚ) :=
  [("AR", 0.045), ("AL", 0.04), ("AZ", 0.056), ("CA", 0.075), ("CO", 0.029),
   ("CT", 0.0635), ("FL", 0.06), ("GA", 0.04), ("IL", 0.0625), ("IN", 0.07),
   ("KS", 0.065), ("LA", 0.045), ("MA", 0.0625), ("MO", 0.04225), ("MS", 0.07),
   ("NC", 0.0475), ("NY", 0.08), ("OH", 0.0575), ("OK", 0.045), ("SC", 0.06),
   ("TN", 0.07), ("TX", 0.0625), ("VA", 0.043), ("WA", 0.065), ("WV", 0.06),
   ("WI", 0.05)]

/-- `this.nexusStates` of the `TaxCalculator` constructor. -/
def nexusStates : List String := ["AR"]

/-- `this.taxRates[state] || 0`. -/
def taxRateFor (state : String) : ℚ := ((taxRates.lookup state).getD 0)

/-- Result object of `TaxCalculator.calculateTax`.  The percent formatting
inside the source's reason strings is elided; the claims only need the reason
to be a disclosed non-empty string. -/
structure TaxResult where
  taxAmount : ℚ
  taxRate : ℚ
  taxableAmount : ℚ
  state : Option String
  reason : String
deriving Repr, DecidableEq

/-- `TaxCalculator.calculateTax(amount, shippingAddress)`.  The
`shippingState` argument is `none` when no address object is supplied or the
address has no `state` field; a present but empty state string is falsy in
JavaScript and lands in the same branch. -/
def calculateTax (amount : ℚ) (shippingState : Option String) : TaxResult :=
  match shippingState with
  | none => ⟨0, 0, amount, none, "No shipping state provided"⟩
  | some s =>
    if s = "" then ⟨0, 0, amount, none, "No shipping state provided"⟩
    else
      let state := jsToUpper s
      if state ∈ nexusStates then
        let taxRate := taxRateFor state
        if taxRate = 0 then
          ⟨0, 0, amount, none, "No tax rate configured for " ++ state⟩
        else
          ⟨round2 (amount * taxRate), taxRate, amount, some state,
            state ++ " sales tax"⟩
      else ⟨0, 0, amount, none, "No nexus in " ++ state⟩

/-- `zipRanges` table of `TaxCalculator.getStateFromZip`, in object insertion
order (the `for (const [state, [min, max]] of Object.entries(...))` loop
visits it in this order). -/
def zipRanges : List (String × ℕ × ℕ) :=
  [("AL", 35000, 36999), ("AZ", 85000, 86999), ("CA", 90000, 96699),
   ("CO", 80000, 81999), ("CT", 6000, 6999), ("FL", 32000, 34999),
   ("GA", 30000, 31999), ("IL", 60000, 62999), ("IN", 46000, 47999),
   ("KS", 66000, 67999), ("LA", 70000, 71999), ("MA", 1000, 2799),
   ("MO", 63000, 65999), ("MS", 38000, 39999), ("NC", 27000, 28999),
   ("NY", 10000, 14999), ("OH", 43000, 45999), ("OK", 73000, 74999),
   ("SC", 29000, 29999), ("TN", 37000, 38599), ("TX", 75000, 79999),
   ("VA", 20000, 24699), ("WA", 98000, 99499), ("WV", 24700, 26999),
   ("WI", 53000, 54999)]

/-- Value of a digit list, most significant first. -/
def digitsToNat (ds : List Char) : ℕ :=
  ds.foldl (fun n c => 10 * n + (c.toNat - 48)) 0

/-- `parseInt(zip)` restricted to the shapes reachable here: the longest
leading run of decimal digits, `none` when there is none (`NaN`, which fails
every range comparison in the loop). -/
def jsParseInt (s : String) : Option ℕ :=
  let ds := s.data.takeWhile Char.isDigit
  if ds.isEmpty then none else some (digitsToNat ds)

/-- `TaxCalculator.getStateFromZip` (same body as
`USPSOAuthIntegration.getStateFromZip`): the regex `^7[12]` short-circuits to
`'AR'`, otherwise the first matching numeric range wins, otherwise `null`. -/
def getStateFromZip (zipCode : String) : Option String :=
  if jsTake zipCode 2 = "71" ∨ jsTake zipCode 2 = "72" then some "AR"
  else
    match jsParseInt zipCode with
    | none => none
    | some n =>
      (zipRanges.find? (fun r => decide (r.2.1 ≤ n) && decide (n ≤ r.2.2))).map
        (fun r => r.1)

/-! ## Data model (tables of `postgresql-setup.js`) -/

/-- A `coupons` row. -/
structure Coupon where
  id : String
  code : String
  discount_type : String
  discount_value : ℚ
  active : Bool
  usage_limit : ℤ
  usage_count : ℤ
  expires_at : Option ℤ
deriving Repr, DecidableEq

/-- A `sub_products` row, carrying the `product_name` produced by the
`JOIN products` of the commit-path queries (the join only contributes this
display field; a row whose parent product is missing would simply be absent
from this list). -/
structure SubProduct where
  id : String
  parent_product_id : String
  size : String
  price : ℚ
  inventory_count : ℤ
  product_name : String
deriving Repr, DecidableEq

/-- An `orders` row (the columns the commit paths write and the claims read;
display-only columns such as phone, street or notes are carried as opaque
strings on the request and omitted from the row model). -/
structure Order where
  id : String
  product_id : String
  sub_product_id : String
  customer_email : String
  customer_name : String
  shipping_state : String
  shipping_zip : String
  shipping_method : Option String
  shipping_cost : ℚ
  quantity : ℤ
  total_amount : ℚ
  paypal_order_id : String
  coupon_code : Option String
  coupon_discount : ℚ
deriving Repr, DecidableEq

/-- The server-side relational state touched by the checkout core. -/
structure DBState where
  subProducts : List SubProduct
  orders : List Order
  coupons : List Coupon
deriving Repr, DecidableEq

/-- `SELECT sp.*, p.name FROM sub_products sp JOIN products p ... WHERE sp.id = $1`. -/
def findSubProduct (db : DBState) (id : String) : Option SubProduct :=
  db.subProducts.find? (fun sp => sp.id == id)

/-- `UPDATE sub_products SET inventory_count = inventory_count - $1 WHERE id = $2`. -/
def decrementInventory (db : DBState) (id : String) (qty : ℤ) : DBState :=
  { db with
    subProducts := db.subProducts.map (fun sp =>
      if sp.id == id then { sp with inventory_count := sp.inventory_count - qty }
      else sp) }

/-- `UPDATE coupons SET usage_count = usage_count + 1 WHERE code = $1`
(note: the raw client-supplied code, not lowercased). -/
def incrementCouponUsage (db : DBState) (code : String) : DBState :=
  { db with
    coupons := db.coupons.map (fun c =>
      if c.code == code then { c with usage_count := c.usage_count + 1 }
      else c) }

/-- `INSERT INTO orders ...`. -/
def insertOrder (db : DBState) (o : Order) : DBState :=
  { db with orders := db.orders ++ [o] }

/-! ## `POST /api/validate-coupon` (`server.js` 678-719) -/

/-- The `WHERE` clause of the coupon lookup, evaluated at time `now`:
`code = $1 AND active = true AND (expires_at IS NULL OR expires_at > NOW())
AND (usage_limit = -1 OR usage_count < usage_limit)` with `$1` the lowercased
client code. -/
def couponQueryMatches (now : ℤ) (inputCode : String) (c : Coupon) : Bool :=
  c.code == jsToLower inputCode && c.active &&
    (match c.expires_at with
     | none => true
     | some t => decide (now < t)) &&
    (c.usage_limit == -1 || decide (c.usage_count < c.usage_limit))

/-- The discount amount before the response rounding: percentage coupons get
`baseAmount * value / 100`, fixed coupons `Math.min(value, baseAmount)`, any
other type `0`. -/
def couponDiscountRaw (c : Coupon) (baseAmount : ℚ) : ℚ :=
  if c.discount_type = "percentage" then baseAmount * c.discount_value / 100
  else if c.discount_type = "fixed" then min c.discount_value baseAmount
  else 0

/-- The `discountAmount` returned by the route:
`parseFloat(discountAmount.toFixed(2))`. -/
def couponDiscountAmount (c : Coupon) (baseAmount : ℚ) : ℚ :=
  round2 (couponDiscountRaw c baseAmount)

/-- Response of `POST /api/validate-coupon`. -/
inductive ValidateCouponResult where
  | badRequest
  | invalid
  | valid (code : String) (discountType : String) (discountValue : ℚ)
      (discountAmount : ℚ)
deriving Repr, DecidableEq

/-- `POST /api/validate-coupon`.  `subtotal` and `shippingCost` are optional
request fields; `!code || !subtotal` treats a missing or zero subtotal (and an
empty code) as a 400, and `parseFloat(shippingCost || 0)` defaults a falsy
shipping cost to `0`. -/
def validateCoupon (coupons : List Coupon) (now : ℤ) (code : String)
    (subtotal shippingCost : Option ℚ) : ValidateCouponResult :=
  if code = "" ∨ subtotal = none ∨ subtotal = some 0 then .badRequest
  else
    match coupons.find? (couponQueryMatches now code) with
    | none => .invalid
    | some coupon =>
      let baseAmount := subtotal.getD 0 + shippingCost.getD 0
      .valid coupon.code coupon.discount_type coupon.discount_value
        (couponDiscountAmount coupon baseAmount)

/-! ## Commit paths -/

/-- The three mutating SQL statements of a commit; each `await pool.query`
can fail, in which case control jumps to the route's `catch` with every
earlier statement already applied (there is no `BEGIN`/`COMMIT` around them). -/
inductive MutStmt where
  | insertOrderStmt
  | updateInventoryStmt
  | updateCouponStmt
deriving Repr, DecidableEq

/-- The oracle for a run in which every statement succeeds. -/
def noFail : MutStmt → Bool := fun _ => false

/-- Body of `POST /api/process-payment`.  `capturedAmount` is the amount the
payment processor reports captured inside the client-echoed `paypalData`
blob; the route destructures `paypalData` but never reads it. -/
structure PPRequest where
  subProductId : String
  productId : String
  quantity : ℤ
  customerEmail : String
  customerName : String
  customerPhone : String
  shippingStreet : String
  shippingCity : String
  shippingState : String
  shippingZip : String
  shippingMethod : Option String
  shippingCost : Option ℚ
  orderNotes : String
  couponCode : Option String
  couponDiscount : Option ℚ
  paypalOrderId : String
  capturedAmount : ℚ
deriving Repr, DecidableEq

/-- Response of `POST /api/process-payment`. -/
inductive PPResponse where
  | missingFields
  | missingAddress
  | notFound
  | insufficientInventory
  | serverError
  | success (orderId : String) (customerEmail : String)
deriving Repr, DecidableEq

/-- JavaScript truthiness of the optional coupon code: `couponCode || null`
is `null` for a missing or empty code. -/
def couponCodeTruthy : Option String → Bool
  | none => false
  | some c => c != ""

/-- The `!subProductId || !productId || !quantity || !customerEmail ||
!customerName || !paypalOrderId` check (a field is falsy when empty, `0` for
the numeric quantity). -/
def ppFieldsPresent (req : PPRequest) : Prop :=
  req.subProductId ≠ "" ∧ req.productId ≠ "" ∧ req.quantity ≠ 0 ∧
    req.customerEmail ≠ "" ∧ req.customerName ≠ "" ∧ req.paypalOrderId ≠ ""

instance (req : PPRequest) : Decidable (ppFieldsPresent req) := by
  unfold ppFieldsPresent; infer_instance

/-- The `!shippingAddress || !shippingAddress.street || ...` check. -/
def ppAddressPresent (req : PPRequest) : Prop :=
  req.shippingStreet ≠ "" ∧ req.shippingCity ≠ "" ∧
    req.shippingState ≠ "" ∧ req.shippingZip ≠ ""

instance (req : PPRequest) : Decidable (ppAddressPresent req) := by
  unfold ppAddressPresent; infer_instance

/-- The order row inserted by `POST /api/process-payment`:
`total_amount = (subtotal + (shippingCost || 0)).toFixed(2)` with
`subtotal = subProduct.price * quantity`; the client-claimed coupon discount
is recorded but not subtracted, and no captured amount is consulted. -/
def ppOrderRow (req : PPRequest) (sp : SubProduct) (newOrderId : String) :
    Order :=
  { id := newOrderId
    product_id := req.productId
    sub_product_id := req.subProductId
    customer_email := req.customerEmail
    customer_name := req.customerName
    shipping_state := req.shippingState
    shipping_zip := req.shippingZip
    shipping_method := req.shippingMethod
    shipping_cost := req.shippingCost.getD 0
    quantity := req.quantity
    total_amount := round2 (sp.price * req.quantity + req.shippingCost.getD 0)
    paypal_order_id := req.paypalOrderId
    coupon_code := if couponCodeTruthy req.couponCode then req.couponCode else none
    coupon_discount := req.couponDiscount.getD 0 }

/-- `POST /api/process-payment` (`server.js` 1656-1766): validation, product
lookup, inventory check, then order insert, inventory decrement and coupon
usage increment as three separate statements.  `fails` says which statement
(if any) throws; a throw returns the 500 response with the earlier statements'
effects already durable. -/
def processPayment (db : DBState) (req : PPRequest) (newOrderId : String)
    (fails : MutStmt → Bool) : PPResponse × DBState :=
  if ¬ ppFieldsPresent req then (.missingFields, db)
  else if ¬ ppAddressPresent req then (.missingAddress, db)
  else
    match findSubProduct db req.subProductId with
    | none => (.notFound, db)
    | some sp =>
      if sp.inventory_count = 0 ∨ sp.inventory_count < req.quantity then
        (.insufficientInventory, db)
      else if fails .insertOrderStmt then (.serverError, db)
      else
        let db1 := insertOrder db (ppOrderRow req sp newOrderId)
        if fails .updateInventoryStmt then (.serverError, db1)
        else
          let db2 := decrementInventory db1 req.subProductId req.quantity
          if couponCodeTruthy req.couponCode then
            if fails .updateCouponStmt then (.serverError, db2)
            else (.success newOrderId req.customerEmail,
              incrementCouponUsage db2 (req.couponCode.getD ""))
          else (.success newOrderId req.customerEmail, db2)

/-- The client-echoed `orderData` of `POST /api/capture-paypal-payment`. -/
structure CPOrderData where
  subProductId : String
  productId : String
  quantity : ℤ
  customerEmail : String
  shippingMethod : Option String
  shippingCost : ℚ
  couponCode : Option String
  couponDiscount : Option ℚ
  subscriberDiscount : Option ℚ
  orderNotes : String
deriving Repr, DecidableEq

/-- The slice of the PayPal capture response the route reads, plus the amount
the processor actually captured (present in the response, never read by the
route). -/
structure CaptureData where
  capturedAmount : ℚ
  shippingState : String
  shippingZip : String
  customerName : String
deriving Repr, DecidableEq

/-- Response of `POST /api/capture-paypal-payment`. -/
inductive CPResponse where
  | serverError
  | success (orderId : String) (totalAmount : ℚ)
deriving Repr, DecidableEq

/-- Order-processing tail of `POST /api/capture-paypal-payment` (`server.js`
1589-1645), entered after the external PayPal capture call succeeded:
`totalAmount = subtotal + shippingCost - (couponDiscount || 0) -
(subscriberDiscount || 0)` (no rounding before insert), then order insert and
an unconditional inventory decrement — no inventory check, no coupon usage
update and no comparison against the captured amount.  The success response
reports `totalAmount.toFixed(2)`. -/
def capturePaypalPayment (db : DBState) (paypalOrderId : String)
    (od : CPOrderData) (cd : CaptureData) (newOrderId : String)
    (fails : MutStmt → Bool) : CPResponse × DBState :=
  match findSubProduct db od.subProductId with
  | none => (.serverError, db)
  | some sp =>
    let subtotal := sp.price * od.quantity
    let totalAmount := subtotal + od.shippingCost -
      (od.couponDiscount.getD 0) - (od.subscriberDiscount.getD 0)
    let row : Order :=
      { id := newOrderId
        product_id := od.productId
        sub_product_id := od.subProductId
        customer_email := od.customerEmail
        customer_name := cd.customerName
        shipping_state := cd.shippingState
        shipping_zip := cd.shippingZip
        shipping_method := od.shippingMethod
        shipping_cost := od.shippingCost
        quantity := od.quantity
        total_amount := totalAmount
        paypal_order_id := paypalOrderId
        coupon_code := od.couponCode
        coupon_discount := od.couponDiscount.getD 0 }
    if fails .insertOrderStmt then (.serverError, db)
    else
      let db1 := insertOrder db row
      if fails .updateInventoryStmt then (.serverError, db1)
      else (.success newOrderId (round2 totalAmount),
        decrementInventory db1 od.subProductId od.quantity)

/-! ## `USPSOAuthIntegration` and the quote routes -/

/-- A shipping option as returned by the rate code. -/
structure ShippingRate where
  service : String
  name : String
  cost : ℚ
  deliveryTime : String
  description : String
deriving Repr, DecidableEq

/-- The synthetic free option the integration always unshifts. -/
def holdForPickupRate : ShippingRate :=
  ⟨"PICKUP", "Hold For Pickup", 0, "Hold for pickup",
    "UPS or USPS Post Office (Hold For Pickup) - FREE"⟩

/-- The synthetic free option both routes prepend. -/
def localPickupRate : ShippingRate :=
  ⟨"LOCAL_PICKUP", "Local Pickup", 0, "Next business day",
    "Local Pickup - FREE (North Little Rock, AR)"⟩

/-- `USPSOAuthIntegration.getDeliveryTime`. -/
def getDeliveryTime (service : String) : String :=
  (([("USPS_GROUND_ADVANTAGE", "2-5 business days"),
     ("PRIORITY_MAIL", "1-3 business days"),
     ("PRIORITY_MAIL_EXPRESS", "1-2 business days")] :
      List (String × String)).lookup service).getD "2-5 business days"

/-- The `services` list of `USPSOAuthIntegration.calculateShippingRates`. -/
def uspsServices : List (String × String) :=
  [("USPS_GROUND_ADVANTAGE", "Ground Advantage"),
   ("PRIORITY_MAIL", "Priority Mail"),
   ("PRIORITY_MAIL_EXPRESS", "Priority Express")]

/-- `USPSOAuthIntegration.calculateShippingRates` (`usps-oauth-integration.js`
357-443).  External effects are passed in: `cachedRates` is the (TTL-valid)
cache entry if any, `tokenResult` the OAuth token outcome, `priceResults` the
per-mail-class pricing call outcome (`.error` covers a transport error, a
timeout, a non-200 status or a response without `totalBasePrice`, all of which
reject the promise).  A failed pricing call for one service is caught and that
service skipped; a failed token fetch lands in the outer `catch`, which
returns a pickup-only list instead of re-throwing.  The function is total:
no failure of the live lookup escapes to the caller. -/
def uspsCalculateShippingRates (cachedRates : Option (List ShippingRate))
    (tokenResult : Except String Unit)
    (priceResults : String → Except String ℚ) : List ShippingRate :=
  match cachedRates with
  | some rates => rates
  | none =>
    match tokenResult with
    | .error _ => [holdForPickupRate]
    | .ok _ =>
      holdForPickupRate ::
        uspsServices.filterMap (fun sv =>
          match priceResults sv.1 with
          | .error _ => none
          | .ok price =>
            some ⟨sv.1, sv.2, price, getDeliveryTime sv.1,
              sv.2 ++ " (" ++ getDeliveryTime sv.1 ++ ")"⟩)

/-- The regex `^\d{5}(-\d{4})?$` of `USPSOAuthIntegration.isValidZipCode`. -/
def isValidZipCode (zip : String) : Prop :=
  (zip.data.length = 5 ∧ zip.data.all Char.isDigit) ∨
    (zip.data.length = 10 ∧ (zip.data.take 5).all Char.isDigit ∧
      zip.data.get? 5 = some '-' ∧ (zip.data.drop 6).all Char.isDigit)

instance (zip : String) : Decidable (isValidZipCode zip) := by
  unfold isValidZipCode; infer_instance

/-- Response of `POST /api/calculate-shipping`. -/
structure ShippingRatesResponse where
  success : Bool
  rates : List ShippingRate
  fallback : Bool
deriving Repr, DecidableEq

/-- The static rate table of the `catch` block of
`POST /api/calculate-shipping` (`server.js` 1106-1135). -/
def staticFallbackRates : List ShippingRate :=
  [localPickupRate,
   ⟨"GROUND_ADVANTAGE", "Ground Advantage", 9.95, "2-5 business days",
     "Ground Advantage (2-5 business days) - $9.95"⟩,
   ⟨"PRIORITY_MAIL", "Priority Mail", 18.50, "1-3 business days",
     "Priority Mail (1-3 business days) - $18.50"⟩,
   ⟨"PRIORITY_MAIL_EXPRESS", "Priority Express", 49.95, "1-2 business days",
     "Priority Express (1-2 business days) - $49.95"⟩]

/-- The response the `catch` block of `POST /api/calculate-shipping` would
send: the static table plus `fallback: true`.  That block runs only when the
`try` body throws; the rate lookup itself never throws (it is total), so the
theorems compare the actual response against this value. -/
def calculateShippingCatchResponse : ShippingRatesResponse :=
  ⟨true, staticFallbackRates, true⟩

/-- `POST /api/calculate-shipping` (`server.js` 1049-1146), with the USPS
outcome passed in as for `uspsCalculateShippingRates`.  `none` models a 400
validation response.  Weight and dimension computation only feed the external
pricing request and are elided.  Given string-typed inputs every step of the
`try` body is total, so the `catch` branch
(`calculateShippingCatchResponse`) is never produced. -/
def calculateShipping (zipCode productSize : String) (quantity : ℤ)
    (cachedRates : Option (List ShippingRate))
    (tokenResult : Except String Unit)
    (priceResults : String → Except String ℚ) :
    Option ShippingRatesResponse :=
  if zipCode = "" ∨ productSize = "" ∨ quantity = 0 then none
  else if ¬ isValidZipCode zipCode then none
  else
    some ⟨true,
      localPickupRate ::
        uspsCalculateShippingRates cachedRates tokenResult priceResults,
      false⟩

/-- One entry of the `orderOptions` array of
`POST /api/calculate-order-total`. -/
structure OrderOption where
  shippingService : String
  shippingCost : ℚ
  subtotal : ℚ
  taxAmount : ℚ
  taxRate : ℚ
  taxReason : String
  total : ℚ
deriving Repr, DecidableEq

/-- Response of `POST /api/calculate-order-total`. -/
structure OrderTotalResponse where
  subtotal : ℚ
  options : List OrderOption
deriving Repr, DecidableEq

/-- `POST /api/calculate-order-total` (`server.js` 1149-1254).
`productPrice` is read from the request body — the route performs no catalog
lookup.  `addressState?` is `some st` when the request supplied an `address`
object (`st` its optional `state` field) and `none` when it did not, in which
case the state is derived from the zip.  `uspsRates` is the list returned by
`uspsCalculateShippingRates` (total, never throws).  For each option the
taxable amount is `subtotal + shippingCost` and
`total = (subtotal + shippingCost + taxAmount).toFixed(2)`. -/
def calculateOrderTotal (zipCode productSize : String) (quantity : ℤ)
    (productPrice : ℚ) (addressState? : Option (Option String))
    (uspsRates : List ShippingRate) : Option OrderTotalResponse :=
  if zipCode = "" ∨ productSize = "" ∨ quantity = 0 ∨ productPrice = 0 then none
  else if ¬ isValidZipCode zipCode then none
  else
    let subtotal := productPrice * quantity
    let shippingRates := localPickupRate :: uspsRates
    let stateForTax : Option String :=
      match addressState? with
      | some st => st
      | none => getStateFromZip zipCode
    some
      { subtotal := subtotal
        options := shippingRates.map (fun rate =>
          let taxableAmount := subtotal + rate.cost
          let taxCalc := calculateTax taxableAmount stateForTax
          { shippingService := rate.service
            shippingCost := rate.cost
            subtotal := subtotal
            taxAmount := taxCalc.taxAmount
            taxRate := taxCalc.taxRate
            taxReason := taxCalc.reason
            total := round2 (subtotal + rate.cost + taxCalc.taxAmount) }) }

/-! ## Concrete fixtures (rows seeded by `postgresql-setup.js` plus test rows
representable in the schema) and small helpers used by the theorems -/

/-- The default coupon seeded by `initializePostgreSQL`
(`postgresql-setup.js` 172-177): code `family`, 25 percent, unlimited. -/
def familyCoupon : Coupon :=
  ⟨"coupon-family", "family", "percentage", 25, true, -1, 0, none⟩

/-- The seeded Tamarind_Sweets 4oz sub-product row ($6.99, 14 on hand). -/
def seededTamarind4oz : SubProduct :=
  ⟨"254fa798-1cce-413f-8e29-6e3c426e4b80", "fixed-tamarind-stew-id", "4oz",
    6.99, 14, "Tamarind_Sweets"⟩

/-- The seeded Quantum_Mango 4oz sub-product row ($8.99, 0 on hand). -/
def seededMango4oz : SubProduct :=
  ⟨"046ae866-7f24-49b6-a137-7f3a0b649872", "fixed-quantum-mango-id", "4oz",
    8.99, 0, "Quantum_Mango"⟩

/-- A coupon whose usage limit is exhausted (`usage_limit = 1`,
`usage_count = 1`). -/
def exhaustedCoupon : Coupon :=
  ⟨"coupon-deal", "deal", "percentage", 10, true, 1, 1, none⟩

/-- A percentage coupon with a value above 100, representable in the
`coupons` schema (the only check constraint is on `discount_type`) and
accepted by the validity query. -/
def megaCoupon : Coupon :=
  ⟨"coupon-mega", "mega", "percentage", 200, true, -1, 0, none⟩

/-- A store with the seeded Tamarind row and the seeded `family` coupon. -/
def demoDB : DBState := ⟨[seededTamarind4oz], [], [familyCoupon]⟩

/-- A store whose only coupon is already at its usage limit. -/
def limitDB : DBState := ⟨[seededTamarind4oz], [], [exhaustedCoupon]⟩

/-- A store with the seeded zero-inventory mango row. -/
def mangoDB : DBState := ⟨[seededMango4oz], [], []⟩

/-- A well-formed `process-payment` request for two seeded Tamarind 4oz jars
with Ground Advantage shipping and the `family` coupon, whose PayPal capture
reports only $0.01 captured. -/
def demoRequest : PPRequest :=
  { subProductId := "254fa798-1cce-413f-8e29-6e3c426e4b80"
    productId := "fixed-tamarind-stew-id"
    quantity := 2
    customerEmail := "buyer@example.com"
    customerName := "Ada Buyer"
    customerPhone := ""
    shippingStreet := "1 Main St"
    shippingCity := "North Little Rock"
    shippingState := "AR"
    shippingZip := "72120"
    shippingMethod := some "GROUND_ADVANTAGE"
    shippingCost := some 9.95
    orderNotes := ""
    couponCode := some "family"
    couponDiscount := some 5.98
    paypalOrderId := "PAYPAL-ORDER-1"
    capturedAmount := 0.01 }

/-- Client `orderData` for one zero-inventory mango jar on the
capture-paypal-payment path. -/
def mangoOrderData : CPOrderData :=
  { subProductId := "046ae866-7f24-49b6-a137-7f3a0b649872"
    productId := "fixed-quantum-mango-id"
    quantity := 1
    customerEmail := "buyer@example.com"
    shippingMethod := some "GROUND_ADVANTAGE"
    shippingCost := 9.95
    couponCode := none
    couponDiscount := none
    subscriberDiscount := none
    orderNotes := "" }

/-- A PayPal capture payload for the mango order. -/
def paypalCapture : CaptureData :=
  { capturedAmount := 18.94
    shippingState := "AR"
    shippingZip := "72120"
    customerName := "Ada Buyer" }

/-- Failure oracle for a run in which the inventory `UPDATE` throws after the
order `INSERT` succeeded. -/
def failInventoryOracle : MutStmt → Bool := fun s =>
  match s with
  | .updateInventoryStmt => true
  | _ => false

/-- Whether a capture response is the success payload (projection that avoids
comparing the rational amount). -/
def CPResponse.isSuccess : CPResponse → Bool
  | .success _ _ => true
  | _ => false

/-- An exact multiple of one cent (every `DECIMAL(10,2)` column value). -/
def isCents (q : ℚ) : Prop := ∃ n : ℤ, q = n / 100

/-! ## Helper lemmas -/

theorem round2_mono {p q : ℚ} (h : p ≤ q) : round2 p ≤ round2 q := by
  unfold round2
  have hf : ⌊p * 100 + 1 / 2⌋ ≤ ⌊q * 100 + 1 / 2⌋ :=
    Int.floor_mono (by linarith)
  have : ((⌊p * 100 + 1 / 2⌋ : ℤ) : ℚ) ≤ ((⌊q * 100 + 1 / 2⌋ : ℤ) : ℚ) := by
    exact_mod_cast hf
  linarith

theorem round2_cents (n : ℤ) : round2 ((n : ℚ) / 100) = (n : ℚ) / 100 := by
  unfold round2
  rw [show ((n : ℚ) / 100) * 100 + 1 / 2 = (n : ℚ) + 1 / 2 by ring]
  rw [Int.floor_int_add]
  norm_num

theorem round2_zero : round2 0 = 0 := by
  have := round2_cents 0
  simpa using this

theorem round2_nonneg {q : ℚ} (h : 0 ≤ q) : 0 ≤ round2 q := by
  have := round2_mono h
  rwa [round2_zero] at this

theorem jsToUpper_ar : jsToUpper "ar" = "AR" := by decide

theorem jsToUpper_AR : jsToUpper "AR" = "AR" := by decide

/-! ## Claim theorems -/

/-- C6: the Tax Resolver returns `round2(taxable * rate)` for a nexus state
with a configured non-zero rate, and a zero tax amount together with a
disclosed reason string for non-nexus states, states without a configured
rate, and requests with no resolvable state. -/
theorem c6_tax_resolver :
    (∀ (amount : ℚ) (s : String) (r : ℚ), s ≠ "" → jsToUpper s ∈ nexusStates →
      taxRateFor (jsToUpper s) = r → r ≠ 0 →
      calculateTax amount (some s) =
        ⟨round2 (amount * r), r, amount, some (jsToUpper s),
          jsToUpper s ++ " sales tax"⟩)
  ∧ (∀ (amount : ℚ) (s : String), s ≠ "" → jsToUpper s ∉ nexusStates →
      calculateTax amount (some s) =
        ⟨0, 0, amount, none, "No nexus in " ++ jsToUpper s⟩)
  ∧ (∀ (amount : ℚ) (s : String), s ≠ "" → jsToUpper s ∈ nexusStates →
      taxRateFor (jsToUpper s) = 0 →
      calculateTax amount (some s) =
        ⟨0, 0, amount, none, "No tax rate configured for " ++ jsToUpper s⟩)
  ∧ (∀ amount : ℚ,
      calculateTax amount none = ⟨0, 0, amount, none, "No shipping state provided"⟩
      ∧ calculateTax amount (some "") =
          ⟨0, 0, amount, none, "No shipping state provided"⟩) := by
  refine ⟨?_, ?_, ?_, ?_⟩
  · intro amount s r hs hmem hrate hr0
    simp only [calculateTax, if_neg hs, if_pos hmem, hrate, if_neg hr0]
  · intro amount s hs hmem
    simp only [calculateTax, if_neg hs, if_neg hmem]
  · intro amount s hs hmem hrate
    simp only [calculateTax, if_neg hs, if_pos hmem, hrate, eq_self_iff_true,
      if_true]
  · intro amount
    exact ⟨rfl, by simp [calculateTax]⟩

/-- Witness for C6 at concrete inputs: $100 to lowercase `ar` (nexus, rate
4.5 percent), to `NY` (no nexus) and with no state at all. -/
theorem c6_tax_resolver_witness :
    calculateTax 100 (some "ar") =
      ⟨round2 (100 * 0.045), 0.045, 100, some "AR", "AR sales tax"⟩
  ∧ calculateTax 100 (some "NY") = ⟨0, 0, 100, none, "No nexus in NY"⟩
  ∧ calculateTax 100 none = ⟨0, 0, 100, none, "No shipping state provided"⟩ := by
  refine ⟨?_, ?_, (c6_tax_resolver.2.2.2 100).1⟩
  · have h := c6_tax_resolver.1 100 "ar" 0.045 (by decide)
      (by rw [jsToUpper_ar]; decide)
      (by rw [jsToUpper_ar]; norm_num [taxRateFor, taxRates])
      (by norm_num)
    rwa [jsToUpper_ar] at h
  · have h := c6_tax_resolver.2.1 100 "NY" (by decide)
      (by rw [show jsToUpper "NY" = "NY" by decide]; decide)
    rwa [show jsToUpper "NY" = "NY" by decide] at h

/-- C8: the worked example scenario — price $6.99 times 2 gives subtotal
$13.98; the 25 percent `family` coupon on base $23.93 gives exactly $5.98;
Arkansas tax on the same base gives exactly $1.08; and
13.98 + 9.95 + 1.08 − 5.98 = 19.03 exactly. -/
theorem c8_example_scenario :
    (6.99 * 2 : ℚ) = 13.98
  ∧ couponDiscountAmount familyCoupon (13.98 + 9.95) = 5.98
  ∧ (calculateTax (13.98 + 9.95) (some "AR")).taxAmount = 1.08
  ∧ (13.98 + 9.95 + 1.08 - 5.98 : ℚ) = 19.03 := by
  refine ⟨by norm_num, ?_, ?_, by norm_num⟩
  · norm_num [couponDiscountAmount, couponDiscountRaw, familyCoupon, round2]
  · have h1 : ("AR" : String) ≠ "" := by decide
    have h2 : "AR" ∈ nexusStates := by decide
    have h3 : taxRateFor "AR" = 0.045 := by norm_num [taxRateFor, taxRates]
    simp only [calculateTax, jsToUpper_AR, if_neg h1, if_pos h2, h3]
    rw [if_neg (by norm_num : ¬(0.045 : ℚ) = 0)]
    norm_num [round2]

set_option maxRecDepth 10000 in
set_option maxHeartbeats 4000000 in
/-- C10: any zip string whose first two characters are `71` or `72` maps to
`AR` before the range table is consulted; consequently the five-digit zips
70000–70999 are the only ones the Louisiana range captures while 71000–71999
are classified as Arkansas. -/
theorem c10_zip_classification :
    (∀ zip : String, jsTake zip 2 = "71" ∨ jsTake zip 2 = "72" →
      getStateFromZip zip = some "AR")
  ∧ (∀ k : ℕ, k < 1000 → getStateFromZip (Nat.repr (70000 + k)) = some "LA")
  ∧ (∀ k : ℕ, k < 1000 → getStateFromZip (Nat.repr (71000 + k)) = some "AR") := by
  refine ⟨?_, ?_, ?_⟩
  · intro zip h
    simp only [getStateFromZip, if_pos h]
  · decide
  · decide

/-- Witness for C10 at the business origin zip `72120` and the mid-range
zips 70500 and 71500. -/
theorem c10_zip_classification_witness :
    getStateFromZip "72120" = some "AR"
  ∧ getStateFromZip (Nat.repr (70000 + 500)) = some "LA"
  ∧ getStateFromZip (Nat.repr (71000 + 500)) = some "AR" :=
  ⟨c10_zip_classification.1 "72120" (Or.inr (by decide)),
   c10_zip_classification.2.1 500 (by norm_num),
   c10_zip_classification.2.2 500 (by norm_num)⟩

/-- C7 counterexample: the percentage coupon `mega` with value 200 passes the
validity query, and on base amount 10 the route computes a discount of 20,
which exceeds the base — the discount is not clamped. -/
theorem c7_discount_exceeds_base :
    validateCoupon [megaCoupon] 0 "MEGA" (some 10) none =
      .valid "mega" "percentage" 200 20
  ∧ ¬ ((20 : ℚ) ≤ 10) := by
  constructor
  · have hm : couponQueryMatches 0 "MEGA" megaCoupon = true := by decide
    have hfind : ([megaCoupon].find? (couponQueryMatches 0 "MEGA")) =
        some megaCoupon := by
      simp [List.find?, hm]
    simp only [validateCoupon, hfind]
    rw [if_neg (by push_neg; exact ⟨by simp, by simp, by norm_num⟩)]
    norm_num [couponDiscountAmount, couponDiscountRaw, megaCoupon, round2]
  · norm_num

/-- C7 as amended: the computed discount is `round2(base * value / 100)` for
percentage coupons and `round2(min(value, base))` for fixed ones; it is
non-negative and bounded by the base for fixed coupons with a non-negative
value and for percentage coupons whose value lies in 0..100, the base being a
non-negative whole-cent amount — but nothing clamps a percentage value above
100, whose discount exceeds the base (see the counterexample). -/
theorem c7_discount_formula :
    (∀ (c : Coupon) (base : ℚ), c.discount_type = "percentage" →
      couponDiscountAmount c base = round2 (base * c.discount_value / 100))
  ∧ (∀ (c : Coupon) (base : ℚ), c.discount_type = "fixed" →
      couponDiscountAmount c base = round2 (min c.discount_value base))
  ∧ (∀ (c : Coupon) (base : ℚ), isCents base → 0 ≤ base →
      c.discount_type = "percentage" → 0 ≤ c.discount_value →
      c.discount_value ≤ 100 →
      0 ≤ couponDiscountAmount c base ∧ couponDiscountAmount c base ≤ base)
  ∧ (∀ (c : Coupon) (base : ℚ), isCents base → 0 ≤ base →
      c.discount_type = "fixed" → 0 ≤ c.discount_value →
      0 ≤ couponDiscountAmount c base ∧ couponDiscountAmount c base ≤ base) := by
  have hperc : ∀ (c : Coupon) (base : ℚ), c.discount_type = "percentage" →
      couponDiscountAmount c base = round2 (base * c.discount_value / 100) := by
    intro c base h
    simp [couponDiscountAmount, couponDiscountRaw, h]
  have hfix : ∀ (c : Coupon) (base : ℚ), c.discount_type = "fixed" →
      couponDiscountAmount c base = round2 (min c.discount_value base) := by
    intro c base h
    simp [couponDiscountAmount, couponDiscountRaw, h]
  have hcents : ∀ base : ℚ, isCents base → round2 base = base := by
    rintro base ⟨n, rfl⟩
    exact round2_cents n
  refine ⟨hperc, hfix, ?_, ?_⟩
  · intro c base hc hb hty hv0 hv100
    rw [hperc c base hty]
    constructor
    · exact round2_nonneg (by positivity)
    · have h1 : base * c.discount_value / 100 ≤ base := by
        rw [div_le_iff₀ (by norm_num : (0 : ℚ) < 100)]
        nlinarith
      calc round2 (base * c.discount_value / 100) ≤ round2 base :=
            round2_mono h1
        _ = base := hcents base hc
  · intro c base hc hb hty hv0
    rw [hfix c base hty]
    constructor
    · exact round2_nonneg (le_min hv0 hb)
    · calc round2 (min c.discount_value base) ≤ round2 base :=
          round2_mono (min_le_right _ _)
        _ = base := hcents base hc

/-- Witness for C7 (amended) at the seeded `family` coupon (25 percent) and
the worked-example base $23.93. -/
theorem c7_discount_formula_witness :
    couponDiscountAmount familyCoupon 23.93 = round2 (23.93 * 25 / 100)
  ∧ 0 ≤ couponDiscountAmount familyCoupon 23.93
  ∧ couponDiscountAmount familyCoupon 23.93 ≤ 23.93 := by
  have h1 := c7_discount_formula.1 familyCoupon 23.93 rfl
  have h2 := c7_discount_formula.2.2.1 familyCoupon 23.93 ⟨2393, by norm_num⟩
    (by norm_num) rfl (by norm_num [familyCoupon]) (by norm_num [familyCoupon])
  exact ⟨by simpa [familyCoupon] using h1, h2.1, h2.2⟩

/-- C1 counterexample: a `process-payment` request whose processor-captured
amount ($0.01) differs from the server-recomputed total ($23.93) by far more
than one cent is not rejected — the order row is inserted, the inventory is
decremented from 14 to 12 and the coupon usage count is incremented. -/
theorem c1_mismatch_not_rejected :
    demoRequest.capturedAmount = 0.01
  ∧ round2 (seededTamarind4oz.price * demoRequest.quantity +
      demoRequest.shippingCost.getD 0) = 23.93
  ∧ ¬ (|(0.01 : ℚ) - 23.93| ≤ 0.01)
  ∧ (processPayment demoDB demoRequest "order-1" noFail).1 =
      .success "order-1" "buyer@example.com"
  ∧ (processPayment demoDB demoRequest "order-1" noFail).2.orders.length = 1
  ∧ ((findSubProduct (processPayment demoDB demoRequest "order-1" noFail).2
      "254fa798-1cce-413f-8e29-6e3c426e4b80").map SubProduct.inventory_count) =
      some 12
  ∧ (processPayment demoDB demoRequest "order-1" noFail).2.coupons.map
      Coupon.usage_count = [1] := by
  refine ⟨rfl, ?_,
    by
      rw [show |(0.01 : ℚ) - 23.93| = 23.92 by
        rw [abs_of_neg (by norm_num)]; norm_num]
      norm_num,
    by decide, by decide, by decide, by decide⟩
  norm_num [seededTamarind4oz, demoRequest, round2]

/-- C1 as amended: neither commit path reads the processor-captured amount at
all — the outcome (response and resulting store state) of `process-payment`
and of `capture-paypal-payment` is identical for any two values of the
captured amount, so no `TotalMismatch` rejection exists. -/
theorem c1_commit_ignores_captured_amount :
    (∀ (db : DBState) (req : PPRequest) (a1 a2 : ℚ) (oid : String)
        (fails : MutStmt → Bool),
      processPayment db { req with capturedAmount := a1 } oid fails =
        processPayment db { req with capturedAmount := a2 } oid fails)
  ∧ (∀ (db : DBState) (poid : String) (od : CPOrderData) (cd : CaptureData)
        (a1 a2 : ℚ) (oid : String) (fails : MutStmt → Bool),
      capturePaypalPayment db poid od { cd with capturedAmount := a1 } oid
          fails =
        capturePaypalPayment db poid od { cd with capturedAmount := a2 } oid
          fails) := by
  constructor
  · intro db req a1 a2 oid fails
    rfl
  · intro db poid od cd a1 a2 oid fails
    rfl

/-- C2 counterexample: with the inventory `UPDATE` failing after the order
`INSERT` succeeded, the run ends in the 500 handler with the order row
durably inserted but the inventory and the coupon usage untouched — the
three mutations are not atomic. -/
theorem c2_insert_survives_update_failure :
    (processPayment demoDB demoRequest "order-2" failInventoryOracle).1 =
      .serverError
  ∧ (processPayment demoDB demoRequest "order-2"
      failInventoryOracle).2.orders.length = 1
  ∧ ((findSubProduct (processPayment demoDB demoRequest "order-2"
      failInventoryOracle).2
      "254fa798-1cce-413f-8e29-6e3c426e4b80").map SubProduct.inventory_count) =
      some 14
  ∧ (processPayment demoDB demoRequest "order-2"
      failInventoryOracle).2.coupons.map Coupon.usage_count = [0] := by
  refine ⟨by decide, by decide, by decide, by decide⟩

/-- C2 as amended: the three mutations run as three separate statements with
no surrounding transaction.  When every statement succeeds all three effects
apply, but when the inventory update fails after the order insert succeeded,
the already-inserted order row persists while inventory and coupon usage stay
untouched. -/
theorem c2_commit_not_atomic :
    (∀ (db : DBState) (req : PPRequest) (oid : String) (fails : MutStmt → Bool)
        (sp : SubProduct),
      ppFieldsPresent req → ppAddressPresent req →
      findSubProduct db req.subProductId = some sp →
      ¬ (sp.inventory_count = 0 ∨ sp.inventory_count < req.quantity) →
      fails .insertOrderStmt = false → fails .updateInventoryStmt = true →
      processPayment db req oid fails =
        (.serverError, insertOrder db (ppOrderRow req sp oid)))
  ∧ (∀ (db : DBState) (req : PPRequest) (oid : String) (sp : SubProduct),
      ppFieldsPresent req → ppAddressPresent req →
      findSubProduct db req.subProductId = some sp →
      ¬ (sp.inventory_count = 0 ∨ sp.inventory_count < req.quantity) →
      couponCodeTruthy req.couponCode = true →
      processPayment db req oid noFail =
        (.success oid req.customerEmail,
          incrementCouponUsage
            (decrementInventory (insertOrder db (ppOrderRow req sp oid))
              req.subProductId req.quantity)
            (req.couponCode.getD ""))) := by
  constructor
  · intro db req oid fails sp h1 h2 h3 h4 h5 h6
    simp only [processPayment, if_neg (not_not_intro h1),
      if_neg (not_not_intro h2), h3, if_neg h4, h5, h6, Bool.false_eq_true,
      if_false, if_true]
  · intro db req oid sp h1 h2 h3 h4 h5
    simp only [processPayment, if_neg (not_not_intro h1),
      if_neg (not_not_intro h2), h3, if_neg h4, noFail, Bool.false_eq_true,
      if_false, h5, if_true]

/-- Witness for C2 (amended) on the demo store: the partial-failure clause at
the inventory-failure oracle, and the all-success clause at `noFail`. -/
theorem c2_commit_not_atomic_witness :
    processPayment demoDB demoRequest "order-w2" failInventoryOracle =
      (.serverError,
        insertOrder demoDB (ppOrderRow demoRequest seededTamarind4oz "order-w2"))
  ∧ processPayment demoDB demoRequest "order-w2" noFail =
      (.success "order-w2" "buyer@example.com",
        incrementCouponUsage
          (decrementInventory
            (insertOrder demoDB (ppOrderRow demoRequest seededTamarind4oz "order-w2"))
            demoRequest.subProductId demoRequest.quantity)
          (demoRequest.couponCode.getD "")) :=
  ⟨c2_commit_not_atomic.1 demoDB demoRequest "order-w2" failInventoryOracle
      seededTamarind4oz (by decide) (by decide) rfl (by decide) rfl rfl,
    by
      have h := c2_commit_not_atomic.2 demoDB demoRequest "order-w2"
        seededTamarind4oz (by decide) (by decide) rfl (by decide) rfl
      simpa [demoRequest] using h⟩

/-- C3 counterexample: on the capture-paypal-payment path a purchase of one
jar of the zero-inventory mango variant is committed — no inventory check
runs, the order row is inserted and `inventory_count` is driven to −1,
violating `on_hand >= 0`. -/
theorem c3_oversell_on_capture_path :
    seededMango4oz.inventory_count = 0
  ∧ mangoOrderData.quantity = 1
  ∧ ((capturePaypalPayment mangoDB "PP-1" mangoOrderData paypalCapture
      "order-3" noFail).1).isSuccess = true
  ∧ ((findSubProduct (capturePaypalPayment mangoDB "PP-1" mangoOrderData
      paypalCapture "order-3" noFail).2
      "046ae866-7f24-49b6-a137-7f3a0b649872").map SubProduct.inventory_count) =
      some (-1)
  ∧ ¬ ((0 : ℤ) ≤ -1)
  ∧ (capturePaypalPayment mangoDB "PP-1" mangoOrderData paypalCapture
      "order-3" noFail).2.orders.length = 1 :=
  ⟨rfl, rfl, by decide, by decide, by decide, by decide⟩

/-- C3 as amended: on the `process-payment` path an insufficient stock level
aborts with the insufficient-inventory response before any mutation and the
`on_hand >= 0` invariant is preserved by every run of that path (for stores
with unique sub-product ids), but the `capture-paypal-payment` path performs
no inventory check at all: it succeeds for any stock level and decrements the
variant unconditionally, so it can drive `on_hand` negative. -/
theorem c3_inventory_guard :
    (∀ (db : DBState) (req : PPRequest) (oid : String) (fails : MutStmt → Bool)
        (sp : SubProduct),
      ppFieldsPresent req → ppAddressPresent req →
      findSubProduct db req.subProductId = some sp →
      sp.inventory_count < req.quantity →
      processPayment db req oid fails = (.insufficientInventory, db))
  ∧ (∀ (db : DBState) (req : PPRequest) (oid : String) (fails : MutStmt → Bool),
      (db.subProducts.map (fun sp => sp.id)).Nodup →
      db.subProducts.all (fun sp => decide (0 ≤ sp.inventory_count)) = true →
      (processPayment db req oid fails).2.subProducts.all
        (fun sp => decide (0 ≤ sp.inventory_count)) = true)
  ∧ (∀ (db : DBState) (poid : String) (od : CPOrderData) (cd : CaptureData)
        (oid : String) (sp : SubProduct),
      findSubProduct db od.subProductId = some sp →
      ((capturePaypalPayment db poid od cd oid noFail).1).isSuccess = true
      ∧ (capturePaypalPayment db poid od cd oid noFail).2.subProducts =
          db.subProducts.map (fun s =>
            if s.id == od.subProductId then
              { s with inventory_count := s.inventory_count - od.quantity }
            else s)) := by
  refine ⟨?_, ?_, ?_⟩
  · intro db req oid fails sp h1 h2 h3 h4
    simp only [processPayment, if_neg (not_not_intro h1),
      if_neg (not_not_intro h2), h3, if_pos (Or.inr h4)]
  · intro db req oid fails hnodup hall
    unfold processPayment
    by_cases h1 : ¬ ppFieldsPresent req
    · rw [if_pos h1]; exact hall
    rw [if_neg h1]
    by_cases h2 : ¬ ppAddressPresent req
    · rw [if_pos h2]; exact hall
    rw [if_neg h2]
    split
    · exact hall
    · rename_i sp hfind
      by_cases h3 : sp.inventory_count = 0 ∨ sp.inventory_count < req.quantity
      · rw [if_pos h3]; exact hall
      · rw [if_neg h3]
        have hq : req.quantity ≤ sp.inventory_count :=
          le_of_not_lt (fun hc => h3 (Or.inr hc))
        have hfind' : db.subProducts.find? (fun x => x.id == req.subProductId) =
            some sp := hfind
        have hsp_mem : sp ∈ db.subProducts := List.mem_of_find?_eq_some hfind'
        have hsp_pred := List.find?_some hfind'
        have hsp_id : sp.id = req.subProductId := by simpa using hsp_pred
        have hall2 : (db.subProducts.map (fun s =>
            if s.id == req.subProductId then
              { s with inventory_count := s.inventory_count - req.quantity }
            else s)).all (fun x => decide (0 ≤ x.inventory_count)) = true := by
          rw [List.all_eq_true]
          rintro x hx
          obtain ⟨y, hy, rfl⟩ := List.mem_map.mp hx
          by_cases hid : y.id == req.subProductId
          · have hy_eq : y = sp :=
              List.inj_on_of_nodup_map hnodup hy hsp_mem
                (by rw [eq_of_beq hid, hsp_id])
            subst hy_eq
            simp only [hid, if_true, decide_eq_true_eq]
            omega
          · simp only [hid, if_false, Bool.false_eq_true]
            have := List.all_eq_true.mp hall y hy
            simpa using this
        by_cases h4 : fails .insertOrderStmt
        · rw [if_pos h4]; exact hall
        · rw [if_neg h4]
          by_cases h5 : fails .updateInventoryStmt
          · rw [if_pos h5]; exact hall
          · rw [if_neg h5]
            by_cases h6 : couponCodeTruthy req.couponCode
            · rw [if_pos h6]
              by_cases h7 : fails .updateCouponStmt
              · rw [if_pos h7]; exact hall2
              · rw [if_neg h7]; exact hall2
            · rw [if_neg h6]; exact hall2
  · intro db poid od cd oid sp hfind
    simp only [capturePaypalPayment, hfind]
    exact ⟨rfl, rfl⟩

/-- Witness for C3 (amended): the insufficient-inventory abort at a two-jar
request against the zero-inventory mango variant, the preserved invariant on
the demo store, and the unchecked capture-path decrement on the mango store. -/
theorem c3_inventory_guard_witness :
    processPayment mangoDB
      { demoRequest with subProductId := "046ae866-7f24-49b6-a137-7f3a0b649872" }
      "order-w3" noFail = (.insufficientInventory, mangoDB)
  ∧ (processPayment demoDB demoRequest "order-w3" noFail).2.subProducts.all
      (fun sp => decide (0 ≤ sp.inventory_count)) = true
  ∧ ((capturePaypalPayment mangoDB "PP-w3" mangoOrderData paypalCapture
      "order-w3b" noFail).1).isSuccess = true :=
  ⟨c3_inventory_guard.1 mangoDB
      { demoRequest with subProductId := "046ae866-7f24-49b6-a137-7f3a0b649872" }
      "order-w3" noFail seededMango4oz (by decide) (by decide) rfl (by decide),
    c3_inventory_guard.2.1 demoDB demoRequest "order-w3" noFail (by decide)
      (by decide),
    (c3_inventory_guard.2.2 mangoDB "PP-w3" mangoOrderData paypalCapture
      "order-w3b" seededMango4oz rfl).1⟩

/-- C4 counterexample: a coupon at its usage limit (`usage_limit = 1`,
`usage_count = 1`) is rejected on the quote path, but a commit naming it is
not rejected — `process-payment` performs no commit-time re-validation and
increments `usage_count` to 2, exceeding the limit. -/
theorem c4_limit_exceeded :
    exhaustedCoupon.usage_limit = 1
  ∧ validateCoupon [exhaustedCoupon] 0 "deal" (some 13.98) (some 9.95) =
      .invalid
  ∧ (processPayment limitDB { demoRequest with couponCode := some "deal" }
      "order-4" noFail).1 = .success "order-4" "buyer@example.com"
  ∧ (processPayment limitDB { demoRequest with couponCode := some "deal" }
      "order-4" noFail).2.coupons.map Coupon.usage_count = [2]
  ∧ ¬ ((2 : ℤ) ≤ 1) := by
  refine ⟨rfl, ?_, by decide, by decide, by decide⟩
  have hm : couponQueryMatches 0 "deal" exhaustedCoupon = false := by decide
  have hfind : [exhaustedCoupon].find? (couponQueryMatches 0 "deal") = none := by
    simp [List.find?, hm]
  simp only [validateCoupon, hfind]
  rw [if_neg (by push_neg; exact ⟨by simp, by simp, by norm_num⟩)]

/-- C4 as amended: the quote-path validation accepts a coupon exactly when
the stored code equals the lowercased client code, `active` is true,
`expires_at` is null or in the future, and the usage limit is −1 or not yet
reached; but at commit time this check is not repeated — whenever a commit
carries any non-empty coupon code, `usage_count` is incremented for the rows
with exactly that code unconditionally, with no validity re-check, so
`usage_count` can exceed `usage_limit`. -/
theorem c4_coupon_revalidation :
    (∀ (coupons : List Coupon) (now : ℤ) (code : String) (st sc : Option ℚ),
      code ≠ "" → st ≠ none → st ≠ some 0 →
      ((∃ cc dt dv da,
          validateCoupon coupons now code st sc = .valid cc dt dv da) ↔
        ∃ c ∈ coupons, couponQueryMatches now code c = true))
  ∧ (∀ (c : Coupon) (now : ℤ) (code : String),
      couponQueryMatches now code c = true ↔
        (c.code = jsToLower code ∧ c.active = true ∧
          (∀ t, c.expires_at = some t → now < t) ∧
          (c.usage_limit = -1 ∨ c.usage_count < c.usage_limit)))
  ∧ (∀ (db : DBState) (req : PPRequest) (oid : String) (sp : SubProduct),
      ppFieldsPresent req → ppAddressPresent req →
      findSubProduct db req.subProductId = some sp →
      ¬ (sp.inventory_count = 0 ∨ sp.inventory_count < req.quantity) →
      couponCodeTruthy req.couponCode = true →
      (processPayment db req oid noFail).2.coupons =
        db.coupons.map (fun c =>
          if c.code == req.couponCode.getD "" then
            { c with usage_count := c.usage_count + 1 }
          else c)) := by
  refine ⟨?_, ?_, ?_⟩
  · intro coupons now code st sc h1 h2 h3
    have hcond : ¬ (code = "" ∨ st = none ∨ st = some 0) := by
      push_neg
      exact ⟨h1, h2, h3⟩
    cases hf : coupons.find? (couponQueryMatches now code) with
    | none =>
      rw [List.find?_eq_none] at hf
      simp only [validateCoupon, if_neg hcond]
      constructor
      · rintro ⟨cc, dt, dv, da, h⟩
        rw [List.find?_eq_none.mpr hf] at h
        exact absurd h (by simp)
      · rintro ⟨c, hc, hm⟩
        exact absurd hm (by simpa using hf c hc)
    | some c =>
      have hc_mem := List.mem_of_find?_eq_some hf
      have hc_p := List.find?_some hf
      simp only [validateCoupon, if_neg hcond, hf]
      constructor
      · intro _
        exact ⟨c, hc_mem, hc_p⟩
      · intro _
        exact ⟨c.code, c.discount_type, c.discount_value, _, rfl⟩
  · intro c now code
    cases hexp : c.expires_at <;>
      simp [couponQueryMatches, hexp, and_assoc]
  · intro db req oid sp h1 h2 h3 h4 h5
    simp only [processPayment, if_neg (not_not_intro h1),
      if_neg (not_not_intro h2), h3, if_neg h4, noFail, Bool.false_eq_true,
      if_false, h5, if_true]
    rfl

/-- Witness for C4 (amended): the seeded `family` coupon is accepted for the
uppercased client code `FAMILY`, and a commit against the exhausted `deal`
coupon increments its usage count with no re-validation. -/
theorem c4_coupon_revalidation_witness :
    (∃ cc dt dv da,
      validateCoupon [familyCoupon] 0 "FAMILY" (some 10) none =
        .valid cc dt dv da)
  ∧ (processPayment limitDB { demoRequest with couponCode := some "deal" }
      "order-w4" noFail).2.coupons =
      limitDB.coupons.map (fun c =>
        if c.code == "deal" then { c with usage_count := c.usage_count + 1 }
        else c) := by
  constructor
  · exact (c4_coupon_revalidation.1 [familyCoupon] 0 "FAMILY" (some 10) none
      (by decide) (by simp) (by simp)).mpr ⟨familyCoupon, by simp, by decide⟩
  · have h := c4_coupon_revalidation.2.2 limitDB
      { demoRequest with couponCode := some "deal" } "order-w4"
      seededTamarind4oz (by decide) (by decide) rfl (by decide) rfl
    simpa using h

/-- C5 counterexample: two quote requests identical except for the
client-supplied `productPrice` field produce different subtotals (and hence
different responses) — the quote path trusts the client price instead of a
catalog price. -/
theorem c5_client_price_trusted :
    (calculateOrderTotal "72120" "4oz" 2 6.99 none []).map
      OrderTotalResponse.subtotal = some 13.98
  ∧ (calculateOrderTotal "72120" "4oz" 2 1 none []).map
      OrderTotalResponse.subtotal = some 2
  ∧ calculateOrderTotal "72120" "4oz" 2 6.99 none [] ≠
      calculateOrderTotal "72120" "4oz" 2 1 none [] := by
  have hz : isValidZipCode "72120" := by decide
  have key : ∀ p : ℚ, p ≠ 0 →
      (calculateOrderTotal "72120" "4oz" 2 p none []).map
        OrderTotalResponse.subtotal = some (p * (2 : ℤ)) := by
    intro p hp
    simp only [calculateOrderTotal]
    rw [if_neg (by push_neg; exact ⟨by simp, by simp, by norm_num, hp⟩),
      if_neg (not_not_intro hz)]
    simp
  refine ⟨?_, ?_, ?_⟩
  · rw [key 6.99 (by norm_num)]
    norm_num
  · rw [key 1 (by norm_num)]
    norm_num
  · intro h
    have h1 := key 6.99 (by norm_num)
    have h2 := key 1 (by norm_num)
    rw [h] at h1
    have h3 := h1.symm.trans h2
    have : (6.99 : ℚ) * ((2 : ℤ) : ℚ) = 1 * ((2 : ℤ) : ℚ) := by
      injection h3
    norm_num at this

/-- C5 as amended: the quote path always computes
`subtotal = productPrice * quantity` from the client-supplied price field
(there is no catalog lookup on this route), and every shipping option's
breakdown carries that same client-derived subtotal. -/
theorem c5_quote_uses_client_price :
    ∀ (zipCode productSize : String) (quantity : ℤ) (productPrice : ℚ)
      (addressState? : Option (Option String)) (uspsRates : List ShippingRate),
      zipCode ≠ "" → productSize ≠ "" → quantity ≠ 0 → productPrice ≠ 0 →
      isValidZipCode zipCode →
      ((calculateOrderTotal zipCode productSize quantity productPrice
          addressState? uspsRates).map OrderTotalResponse.subtotal =
        some (productPrice * quantity))
      ∧ (∀ (resp : OrderTotalResponse) (opt : OrderOption),
          calculateOrderTotal zipCode productSize quantity productPrice
            addressState? uspsRates = some resp →
          opt ∈ resp.options → opt.subtotal = productPrice * quantity) := by
  intro zipCode productSize quantity productPrice addressState? uspsRates
    h1 h2 h3 h4 h5
  constructor
  · simp only [calculateOrderTotal]
    rw [if_neg (by push_neg; exact ⟨h1, h2, h3, h4⟩),
      if_neg (not_not_intro h5)]
    simp
  · intro resp opt h hopt
    simp only [calculateOrderTotal] at h
    rw [if_neg (by push_neg; exact ⟨h1, h2, h3, h4⟩),
      if_neg (not_not_intro h5)] at h
    have hr := (Option.some.injEq _ _).mp h
    rw [← hr] at hopt
    obtain ⟨rate, _, rfl⟩ := List.mem_map.mp hopt
    rfl

/-- Witness for C5 (amended) at the demo quote: zip 72120, size `4oz`, two
jars at the client-asserted price $6.99 and no live rates. -/
theorem c5_quote_uses_client_price_witness :
    (calculateOrderTotal "72120" "4oz" 2 6.99 none []).map
      OrderTotalResponse.subtotal = some (6.99 * ((2 : ℤ) : ℚ)) :=
  (c5_quote_uses_client_price "72120" "4oz" 2 6.99 none [] (by decide)
    (by decide) (by decide) (by norm_num) (by decide)).1

/-- C9 counterexample: with the OAuth token fetch failing (the whole live
lookup down), the shipping route still answers success — but with a
pickup-only rate list coming from the integration's internal fallback and
with no `fallback` flag; the route's static fallback table (which does carry
`fallback: true`) is not what is returned. -/
theorem c9_estimator_failure_no_flag :
    calculateShipping "72120" "8oz" 2 none (.error "ETIMEDOUT")
      (fun _ => .error "unreachable") =
      some ⟨true, [localPickupRate, holdForPickupRate], false⟩
  ∧ (⟨true, [localPickupRate, holdForPickupRate], false⟩ :
      ShippingRatesResponse).fallback = false
  ∧ (⟨true, [localPickupRate, holdForPickupRate], false⟩ :
      ShippingRatesResponse) ≠ calculateShippingCatchResponse := by
  refine ⟨?_, rfl, ?_⟩
  · have hz : isValidZipCode "72120" := by decide
    simp only [calculateShipping, uspsCalculateShippingRates]
    rw [if_neg (by push_neg; exact ⟨by simp, by simp, by norm_num⟩),
      if_neg (not_not_intro hz)]
  · intro h
    have : (false : Bool) = true := congrArg ShippingRatesResponse.fallback h
    exact absurd this (by simp)

/-- C9 as amended: a failure of the live rate lookup never propagates — the
route answers success — but the response then carries the integration's
pickup-only list and `fallback = false`; in fact every response of the route
has `fallback = false`, the `fallback: true` static-table response existing
only in a catch branch the (total) rate lookup cannot trigger. -/
theorem c9_fallback_flag_never_set :
    (∀ (zipCode productSize : String) (quantity : ℤ) (e : String)
        (priceResults : String → Except String ℚ),
      zipCode ≠ "" → productSize ≠ "" → quantity ≠ 0 → isValidZipCode zipCode →
      calculateShipping zipCode productSize quantity none (.error e)
          priceResults =
        some ⟨true, [localPickupRate, holdForPickupRate], false⟩)
  ∧ (∀ (zipCode productSize : String) (quantity : ℤ)
        (cachedRates : Option (List ShippingRate))
        (tokenResult : Except String Unit)
        (priceResults : String → Except String ℚ) (r : ShippingRatesResponse),
      calculateShipping zipCode productSize quantity cachedRates tokenResult
          priceResults = some r →
      r.fallback = false ∧ r.success = true)
  ∧ calculateShippingCatchResponse.fallback = true := by
  refine ⟨?_, ?_, rfl⟩
  · intro zipCode productSize quantity e priceResults h1 h2 h3 h4
    simp only [calculateShipping, uspsCalculateShippingRates]
    rw [if_neg (by push_neg; exact ⟨h1, h2, h3⟩), if_neg (not_not_intro h4)]
  · intro zipCode productSize quantity cachedRates tokenResult priceResults r h
    simp only [calculateShipping] at h
    by_cases hc : zipCode = "" ∨ productSize = "" ∨ quantity = 0
    · rw [if_pos hc] at h
      exact absurd h (by simp)
    · rw [if_neg hc] at h
      by_cases hz : ¬ isValidZipCode zipCode
      · rw [if_pos hz] at h
        exact absurd h (by simp)
      · rw [if_neg hz] at h
        have hr := (Option.some.injEq _ _).mp h.symm
        rw [hr]
        exact ⟨rfl, rfl⟩

/-- Witness for C9 (amended) at the concrete failing-estimator quote. -/
theorem c9_fallback_flag_never_set_witness :
    calculateShipping "72120" "8oz" 3 none (.error "ECONNREFUSED")
      (fun _ => .error "down") =
      some ⟨true, [localPickupRate, holdForPickupRate], false⟩
  ∧ ((⟨true, [localPickupRate, holdForPickupRate], false⟩ :
      ShippingRatesResponse).fallback = false
    ∧ (⟨true, [localPickupRate, holdForPickupRate], false⟩ :
      ShippingRatesResponse).success = true) :=
  ⟨c9_fallback_flag_never_set.1 "72120" "8oz" 3 "ECONNREFUSED"
      (fun _ => .error "down") (by decide) (by decide) (by decide) (by decide),
    c9_fallback_flag_never_set.2.1 "72120" "8oz" 3 none
      (.error "ECONNREFUSED") (fun _ => .error "down")
      ⟨true, [localPickupRate, holdForPickupRate], false⟩
      (c9_fallback_flag_never_set.1 "72120" "8oz" 3 "ECONNREFUSED"
        (fun _ => .error "down") (by decide) (by decide) (by decide)
        (by decide))⟩

end RellsKitchen
